import Mathlib

/-!
Verification of the notifications delivery core.

The delivery worker (`postal.DeliveryWorker.Deliver`) implementation file is
absent from the sources; only its test suite (`postal/delivery_worker_test.go`)
is present.  The worker is therefore modelled from the specification
(spec.md §4.2 Delivery pipeline, §4.3 Retry Policy, §6 log events, §7 error
taxonomy), kept consistent with the observable behaviour recorded in the test
suite.  `EveryoneStrategy.Dispatch` and `PreferenceFinder.ParseUserID` are
embedded from their Go sources directly.

Time is modelled in seconds as an integer offset; one minute is 60.
External collaborators (token loader, user loader, suppression repositories,
template loader, mail transport, receipts repository, messages repository)
are modelled by an environment record carrying each call's result.
-/

/-- Message statuses: queued, delivered, failed, undeliverable, unavailable. -/
inductive Status where
  | queued
  | delivered
  | failed
  | undeliverable
  | unavailable
deriving DecidableEq, Repr

/-- Options carried by a Delivery (subject/text/reply-to/kind/template/endorsement). -/
structure Options where
  subject : String
  text : String
  replyTo : String
  kindID : String
  templateID : String
  endorsement : String
deriving DecidableEq, Repr

/-- A single-recipient send instruction (postal.Delivery). -/
structure Delivery where
  clientID : String
  userGUID : String
  email : String
  options : Options
  messageID : String
  vcapRequestID : String
deriving DecidableEq, Repr

/-- A campaign payload, forwarded whole to the Strategy Determiner. -/
structure Campaign where
  campaignID : String
deriving DecidableEq, Repr

/-- Modelled from the spec: the job payload union (spec.md §3, §9 "Dynamic
job-payload union"), decoded once at dequeue time.  `malformed` stands for a
payload whose deserialization fails (e.g. truncated JSON). -/
inductive Payload where
  | malformed (raw : String)
  | campaign (c : Campaign)
  | delivery (d : Delivery)
deriving DecidableEq, Repr

/-- A queued job (gobble.Job): payload plus scheduling metadata. -/
structure Job where
  payload : Payload
  retryCount : Nat
  activeAt : Int
  shouldRetry : Bool
deriving DecidableEq, Repr

/-- Environment: the results of every external-collaborator call the worker
makes while processing one job. -/
structure Env where
  now : Int
  tokenLoad : Except String String
  userEmail : String
  globallyUnsubscribed : Bool
  kindUnsubscribed : Bool
  kindCritical : Option Bool
  renderOk : Bool
  connectErr : Option String
  sendErr : Option String
  receiptErr : Option String
  upsertErr : Option String

/-- A structured log event: name, lager level (DEBUG 0, INFO 1, ERROR 2),
and the attempted status for status-upsert failure events. -/
structure LogEvent where
  name : String
  level : Nat
  status : Option Status
deriving DecidableEq, Repr

/-- Observable effects of one `deliver` call: log lines, mail-transport
connect attempts, successfully sent messages, created receipts
(client, kind, user), attempted message-status upserts, the job forwarded to
the Strategy Determiner (if any), and whether the retry branch was taken. -/
structure Effects where
  log : List LogEvent
  connects : Nat
  sends : Nat
  receipts : List (String × String × String)
  upserts : List (String × Status)
  determined : Option Job
  retryBranch : Bool
deriving DecidableEq, Repr

def Effects.empty : Effects :=
  { log := [], connects := 0, sends := 0, receipts := [], upserts := []
  , determined := none, retryBranch := false }

def logAt (fx : Effects) (n : String) (lv : Nat) : Effects :=
  { fx with log := fx.log ++ [⟨n, lv, none⟩] }

/-- Modelled from the spec: retry policy (spec.md §4.3).  Below the fixed cap
of 10, reschedule with delay 1 minute * 2^retry_count and increment
retry_count; at or beyond the cap, mark the job not-to-retry and change
nothing else. -/
def retrySchedule (now : Int) (j : Job) : Job :=
  if j.retryCount < 10 then
    { j with shouldRetry := true
           , activeAt := now + 60 * 2 ^ j.retryCount
           , retryCount := j.retryCount + 1 }
  else
    { j with shouldRetry := false }

/-- Take the transient-failure branch: apply the retry policy to the job and
record it in the effects (logging `delivery-failed-retrying` when an actual
reschedule happens). -/
def retryMark (env : Env) (j : Job) (fx : Effects) : Job × Effects :=
  (retrySchedule env.now j,
   { (if j.retryCount < 10 then logAt fx "delivery-failed-retrying" 1 else fx)
       with retryBranch := true })

/-- Attempt a message-status upsert; on repository failure, log
`failed-message-status-upsert` at error level with the attempted status but
change nothing else (spec.md §4.2 step f, §7). -/
def upsertStatus (env : Env) (mid : String) (st : Status) (fx : Effects) : Effects :=
  let fx := { fx with upserts := fx.upserts ++ [(mid, st)] }
  match env.upsertErr with
  | none => fx
  | some _ => { fx with log := fx.log ++ [⟨"failed-message-status-upsert", 2, some st⟩] }

/-- The recipient email: the Delivery's own email when present, otherwise the
address resolved through the identity provider (spec.md §4.2 step a). -/
def resolvedEmail (env : Env) (d : Delivery) : String :=
  if d.email ≠ "" then d.email else env.userEmail

/-- Whether the address has an `@` domain separator. -/
def hasAtSign (s : String) : Bool := s.data.any (fun c => c = '@')

/-- The terminal point a single-recipient delivery reaches (spec.md §4.2
steps a-e, checked in that order). -/
inductive Outcome where
  | retryTokenLoad
  | suppressedGlobal
  | suppressedKind
  | noEmail
  | badEmail
  | renderFailed
  | connectFailed
  | sendFailed
  | receiptFailed
  | sent
deriving DecidableEq, Repr

/-- Modelled from the spec: walk the delivery pipeline's checks in order
(token load; global unsubscribe; per-kind unsubscribe unless the kind is
registered critical; empty email; email without an `@`; template render;
transport connect; transport send; receipt creation). -/
def pipelineOutcome (env : Env) (d : Delivery) : Outcome :=
  match env.tokenLoad with
  | .error _ => .retryTokenLoad
  | .ok _ =>
    if env.globallyUnsubscribed then .suppressedGlobal
    else if env.kindUnsubscribed && !(env.kindCritical == some true) then .suppressedKind
    else if resolvedEmail env d = "" then .noEmail
    else if !(hasAtSign (resolvedEmail env d)) then .badEmail
    else if !env.renderOk then .renderFailed
    else
      match env.connectErr with
      | some _ => .connectFailed
      | none =>
        match env.sendErr with
        | some _ => .sendFailed
        | none =>
          match env.receiptErr with
          | some _ => .receiptFailed
          | none => .sent

/-- The status upserted at each terminal point (spec.md §4.2 steps b-e). -/
def statusOf : Outcome → Option Status
  | .retryTokenLoad => none
  | .suppressedGlobal => some .undeliverable
  | .suppressedKind => some .undeliverable
  | .noEmail => some .undeliverable
  | .badEmail => some .undeliverable
  | .renderFailed => some .failed
  | .connectFailed => some .unavailable
  | .sendFailed => some .failed
  | .receiptFailed => none
  | .sent => some .delivered

/-- Whether the outcome is a transient failure handled by the retry policy
(spec.md §4.3). -/
def isRetryOutcome : Outcome → Bool
  | .retryTokenLoad => true
  | .renderFailed => true
  | .connectFailed => true
  | .sendFailed => true
  | .receiptFailed => true
  | _ => false

/-- The outcome-specific log event (name, level), per spec.md §6. -/
def outcomeLog : Outcome → Option (String × Nat)
  | .retryTokenLoad => none
  | .suppressedGlobal => some ("user-unsubscribed", 1)
  | .suppressedKind => some ("user-unsubscribed", 1)
  | .noEmail => some ("no-email-address-for-user", 1)
  | .badEmail => some ("malformatted-email-address", 1)
  | .renderFailed => some ("template-pack-failed", 1)
  | .connectFailed => some ("smtp-connection-error", 2)
  | .sendFailed => some ("delivery-failed-smtp-error", 2)
  | .receiptFailed => none
  | .sent => some ("message-sent", 1)

/-- Connect attempts made: exactly the outcomes that reach the send stage. -/
def outcomeConnects : Outcome → Nat
  | .connectFailed => 1
  | .sendFailed => 1
  | .receiptFailed => 1
  | .sent => 1
  | _ => 0

/-- Messages accepted by the transport: send succeeded (even if the receipt
then failed). -/
def outcomeSends : Outcome → Nat
  | .receiptFailed => 1
  | .sent => 1
  | _ => 0

/-- Assemble the effects of a pipeline run that reached the given outcome:
the `delivery-start` log, the outcome's own log event, connect/send counters,
the receipt on full success, and the terminal status upsert. -/
def pipelineEffects (env : Env) (d : Delivery) (o : Outcome) : Effects :=
  let fx := Effects.empty
  let fx := if o = .retryTokenLoad then fx else logAt fx "delivery-start" 1
  let fx := match outcomeLog o with
    | some (n, lv) => logAt fx n lv
    | none => fx
  let fx := { fx with connects := outcomeConnects o, sends := outcomeSends o }
  let fx := if o = .sent then
      { fx with receipts := [(d.clientID, d.options.kindID, d.userGUID)] }
    else fx
  match statusOf o with
  | some st => upsertStatus env d.messageID st fx
  | none => fx

/-- Modelled from the spec: the single-recipient delivery pipeline
(spec.md §4.2 steps a-f).  Transient failures additionally apply the retry
policy to the job. -/
def deliverPipeline (env : Env) (j : Job) (d : Delivery) : Job × Effects :=
  let o := pipelineOutcome env d
  let fx := pipelineEffects env d o
  if isRetryOutcome o then retryMark env j fx else (j, fx)

/-- Modelled from the spec: `DeliveryWorker.Deliver` (spec.md §4.2 per-job
dispatch), whose implementation file is absent from the sources.  A payload
that fails to deserialize takes the transient-failure branch; a campaign
payload is forwarded whole to the Strategy Determiner and the worker
returns; a delivery payload runs the pipeline. -/
def deliver (env : Env) (j : Job) : Job × Effects :=
  match j.payload with
  | .malformed _ => retryMark env j Effects.empty
  | .campaign _ =>
      (j, { Effects.empty with
              log := [⟨"determining-strategy", 1, none⟩], determined := some j })
  | .delivery d => deliverPipeline env j d

/-! ## EveryoneStrategy (embedded from the Go source) -/

/-- services.EveryoneEndorsement. -/
def EveryoneEndorsement : String := "This message was sent to everyone."

/-- The HTML part of a dispatch message. -/
structure HTMLPart where
  bodyContent : String
  bodyAttributes : String
  head : String
  doctype : String
deriving DecidableEq, Repr

/-- services.Options as built by a strategy. -/
structure SOptions where
  replyTo : String
  subject : String
  toAddr : String
  endorsement : String
  kindID : String
  kindDescription : String
  sourceDescription : String
  text : String
  templateID : String
  html : HTMLPart
deriving DecidableEq, Repr

/-- services.User: a recipient identity. -/
structure SUser where
  guid : String
deriving DecidableEq, Repr

/-- The fields of services.Dispatch that EveryoneStrategy.Dispatch reads. -/
structure SDispatch where
  uaaHost : String
  templateID : String
  kindID : String
  kindDescription : String
  clientID : String
  clientDescription : String
  msgReplyTo : String
  msgSubject : String
  msgTo : String
  msgText : String
  msgHTML : HTMLPart
deriving DecidableEq, Repr

/-- A per-recipient response returned by the enqueuer. -/
structure SResponse where
  status : String
  recipient : String
deriving DecidableEq, Repr

/-- The external collaborators of EveryoneStrategy: the token loader, the
all-user-GUIDs getter, and the enqueuer. -/
structure EveryoneEnv where
  loadToken : String → Except String String
  allUserGUIDs : String → Except String (List String)
  enqueue : List SUser → SOptions → List SResponse

/-- The result of one Dispatch call, with the enqueuer invocations recorded
(each invocation: the users list and the options it received). -/
structure EveryoneResult where
  responses : List SResponse
  error : Option String
  enqueued : List (List SUser × SOptions)
deriving DecidableEq, Repr

/-- The Options EveryoneStrategy.Dispatch builds from the dispatch request:
the caller's message fields plus the fixed everyone endorsement. -/
def everyoneOptions (d : SDispatch) : SOptions :=
  { replyTo := d.msgReplyTo
  , subject := d.msgSubject
  , toAddr := d.msgTo
  , endorsement := EveryoneEndorsement
  , kindID := d.kindID
  , kindDescription := d.kindDescription
  , sourceDescription := d.clientDescription
  , text := d.msgText
  , templateID := d.templateID
  , html := d.msgHTML }

/-- EveryoneStrategy.Dispatch: build options with the everyone endorsement,
load a token for the dispatch's UAA host, enumerate every user GUID, wrap
each GUID as a User, and enqueue them all in one call; a token-load or
enumeration error is returned with the empty responses list and nothing
enqueued. -/
def everyoneDispatch (env : EveryoneEnv) (d : SDispatch) : EveryoneResult :=
  let options := everyoneOptions d
  match env.loadToken d.uaaHost with
  | .error e => { responses := [], error := some e, enqueued := [] }
  | .ok token =>
    match env.allUserGUIDs token with
    | .error e => { responses := [], error := some e, enqueued := [] }
    | .ok userGUIDs =>
      let users := userGUIDs.map (fun g => SUser.mk g)
      let responses := env.enqueue users options
      { responses := responses, error := none, enqueued := [(users, options)] }

/-! ## PreferenceFinder.ParseUserID (embedded from the Go source) -/

/-- A JWT claim value as stored in the token's claims map. -/
inductive ClaimValue where
  | str (s : String)
  | num (n : Int)
  | other
deriving DecidableEq, Repr

/-- A parsed JWT token: its claims map. -/
structure JwtToken where
  claims : List (String × ClaimValue)
deriving DecidableEq, Repr

/-- The result of evaluating a Go expression that can panic: either a value
or a runtime panic with its message. -/
inductive GoEval (α : Type) where
  | ok (a : α)
  | crash (msg : String)
deriving DecidableEq, Repr

/-- Whether the evaluation panicked. -/
def GoEval.isCrash {α : Type} : GoEval α → Bool
  | .crash _ => true
  | .ok _ => false

/-- PreferenceFinder.ParseUserID, evaluated on the result of jwt.Parse
(the token pointer, which is nil when parsing fails outright, and the parse
error).  The Go body is
`token, err := jwt.Parse(...); return token.Claims["user_id"].(string), err`:
it dereferences the token and evaluates the unchecked type assertion on the
user_id claim before `err` is ever examined, so a nil token panics with a
nil-pointer dereference and a missing or non-string user_id claim panics
with an interface-conversion error. -/
def ParseUserID (parsedToken : Option JwtToken) (parseErr : Option String) :
    GoEval (String × Option String) :=
  match parsedToken with
  | none => .crash "invalid memory address or nil pointer dereference"
  | some tok =>
    match tok.claims.lookup "user_id" with
    | some (.str s) => .ok (s, parseErr)
    | _ => .crash "interface conversion: interface is not string"


def passesPreSend (env : Env) (d : Delivery) : Prop :=
  env.globallyUnsubscribed = false ∧
  (env.kindUnsubscribed = false ∨ env.kindCritical = some true) ∧
  resolvedEmail env d ≠ "" ∧
  hasAtSign (resolvedEmail env d) = true

def iterDeliver (env : Env) (j : Job) (n : Nat) : Job :=
  (fun jj => (deliver env jj).1)^[n] j

/-! ## Concrete sample values used by the witness theorems -/

def sampleOptions : Options :=
  { subject := "the subject", text := "body content"
  , replyTo := "thesender@example.com", kindID := "some-kind"
  , templateID := "some-template-id", endorsement := "" }

def sampleDelivery : Delivery :=
  { clientID := "some-client", userGUID := "user-123", email := ""
  , options := sampleOptions, messageID := "randomly-generated-guid"
  , vcapRequestID := "some-request-id" }

def sampleEnv : Env :=
  { now := 1000, tokenLoad := .ok "zoned-token"
  , userEmail := "user-123@example.com"
  , globallyUnsubscribed := false, kindUnsubscribed := false, kindCritical := none
  , renderOk := true, connectErr := none, sendErr := none, receiptErr := none
  , upsertErr := none }

def sampleJob : Job :=
  { payload := .delivery sampleDelivery, retryCount := 0, activeAt := 0
  , shouldRetry := false }

def connectFailEnv : Env := { sampleEnv with connectErr := some "BOOM" }

def gUnsubEnv : Env :=
  { sampleEnv with globallyUnsubscribed := true, kindCritical := some true }

def kindUnsubEnv : Env := { sampleEnv with kindUnsubscribed := true }

def kindUnsubCritEnv : Env :=
  { sampleEnv with kindUnsubscribed := true, kindCritical := some true }

def noEmailEnv : Env := { sampleEnv with userEmail := "" }

def badEmailDelivery : Delivery := { sampleDelivery with email := "nope" }

def badEmailJob : Job := { sampleJob with payload := .delivery badEmailDelivery }

def upsertFailEnv : Env := { sampleEnv with upsertErr := some "db down" }

def sampleCampaignJob : Job :=
  { sampleJob with payload := .campaign ⟨"campaign-1"⟩ }

def sampleMalformedJob : Job :=
  { sampleJob with payload := .malformed "truncated json" }

def sampleEveryoneEnv : EveryoneEnv :=
  { loadToken := fun _ => .ok "uaa-token"
  , allUserGUIDs := fun _ => .ok ["user-a", "user-b", "user-c"]
  , enqueue := fun us _ => us.map (fun u => { status := "queued", recipient := u.guid }) }

def sampleSDispatch : SDispatch :=
  { uaaHost := "uaa.example.com", templateID := "some-template-id"
  , kindID := "some-kind", kindDescription := "some kind"
  , clientID := "some-client", clientDescription := "some client"
  , msgReplyTo := "thesender@example.com", msgSubject := "the subject"
  , msgTo := "", msgText := "body content", msgHTML := ⟨"", "", "", ""⟩ }

/-! ## Helper lemmas -/

lemma upsertStatus_upserts (env : Env) (mid : String) (st : Status) (fx : Effects) :
    (upsertStatus env mid st fx).upserts = fx.upserts ++ [(mid, st)] := by
  unfold upsertStatus; cases env.upsertErr <;> simp

lemma upsertStatus_connects (env : Env) (mid : String) (st : Status) (fx : Effects) :
    (upsertStatus env mid st fx).connects = fx.connects := by
  unfold upsertStatus; cases env.upsertErr <;> simp

lemma upsertStatus_sends (env : Env) (mid : String) (st : Status) (fx : Effects) :
    (upsertStatus env mid st fx).sends = fx.sends := by
  unfold upsertStatus; cases env.upsertErr <;> simp

lemma upsertStatus_receipts (env : Env) (mid : String) (st : Status) (fx : Effects) :
    (upsertStatus env mid st fx).receipts = fx.receipts := by
  unfold upsertStatus; cases env.upsertErr <;> simp

lemma upsertStatus_log_mem (env : Env) (mid : String) (st : Status) (fx : Effects)
    (e : LogEvent) (h : e ∈ fx.log) : e ∈ (upsertStatus env mid st fx).log := by
  unfold upsertStatus; cases env.upsertErr <;> simp [h]

lemma deliver_eq_pipeline (env : Env) (j : Job) (d : Delivery)
    (hp : j.payload = .delivery d) : deliver env j = deliverPipeline env j d := by
  obtain ⟨p, rc, aa, sr⟩ := j
  cases hp
  rfl

lemma retryMark_fst (env : Env) (j : Job) (fx : Effects) :
    (retryMark env j fx).1 = retrySchedule env.now j := rfl

lemma retryMark_upserts (env : Env) (j : Job) (fx : Effects) :
    (retryMark env j fx).2.upserts = fx.upserts := by
  unfold retryMark logAt; split <;> simp

lemma retryMark_sends (env : Env) (j : Job) (fx : Effects) :
    (retryMark env j fx).2.sends = fx.sends := by
  unfold retryMark logAt; split <;> simp

lemma retryMark_connects (env : Env) (j : Job) (fx : Effects) :
    (retryMark env j fx).2.connects = fx.connects := by
  unfold retryMark logAt; split <;> simp

lemma retryMark_receipts (env : Env) (j : Job) (fx : Effects) :
    (retryMark env j fx).2.receipts = fx.receipts := by
  unfold retryMark logAt; split <;> simp

lemma retryMark_determined (env : Env) (j : Job) (fx : Effects) :
    (retryMark env j fx).2.determined = fx.determined := by
  unfold retryMark logAt; split <;> simp

lemma retryMark_retryBranch (env : Env) (j : Job) (fx : Effects) :
    (retryMark env j fx).2.retryBranch = true := by
  unfold retryMark logAt; split <;> simp

lemma retryMark_log (env : Env) (j : Job) (fx : Effects) :
    (retryMark env j fx).2.log =
      fx.log ++ (if j.retryCount < 10
                 then [⟨"delivery-failed-retrying", 1, none⟩] else []) := by
  unfold retryMark logAt; split <;> simp

lemma pipelineEffects_retryBranch (env : Env) (d : Delivery) (o : Outcome) :
    (pipelineEffects env d o).retryBranch = false := by
  cases o <;> cases hue : env.upsertErr <;>
    simp [pipelineEffects, outcomeLog, outcomeConnects, outcomeSends, statusOf,
          upsertStatus, hue, Effects.empty, logAt]

lemma deliver_fst_of_retryBranch (env : Env) (j : Job)
    (h : (deliver env j).2.retryBranch = true) :
    (deliver env j).1 = retrySchedule env.now j := by
  obtain ⟨p, rc, aa, sr⟩ := j
  cases p with
  | malformed raw => simp [deliver, retryMark_fst]
  | campaign c => simp [deliver, Effects.empty] at h
  | delivery d =>
    by_cases hr : isRetryOutcome (pipelineOutcome env d) = true
    · simp [deliver, deliverPipeline, hr, retryMark_fst]
    · exfalso
      simp [deliver, deliverPipeline, hr, pipelineEffects_retryBranch] at h

lemma retrySchedule_payload (now : Int) (j : Job) :
    (retrySchedule now j).payload = j.payload := by
  unfold retrySchedule; split <;> rfl

lemma deliver_step_retry (env : Env) (d : Delivery)
    (h : isRetryOutcome (pipelineOutcome env d) = true)
    (j : Job) (hp : j.payload = .delivery d) :
    (deliver env j).1 = retrySchedule env.now j := by
  rw [deliver_eq_pipeline env j d hp]
  simp [deliverPipeline, h, retryMark_fst]

lemma iterDeliver_spec (env : Env) (d : Delivery)
    (h : isRetryOutcome (pipelineOutcome env d) = true)
    (j : Job) (hp : j.payload = .delivery d) (h0 : j.retryCount = 0) :
    ∀ k, k ≤ 10 →
      (iterDeliver env j k).payload = .delivery d ∧
      (iterDeliver env j k).retryCount = k ∧
      (1 ≤ k → (iterDeliver env j k).activeAt = env.now + 60 * 2 ^ (k - 1) ∧
               (iterDeliver env j k).shouldRetry = true) := by
  intro k
  induction k with
  | zero => intro _; exact ⟨hp, h0, by omega⟩
  | succ k ih =>
    intro hk
    obtain ⟨ihp, ihrc, _⟩ := ih (by omega)
    have hstep : iterDeliver env j (k + 1) = (deliver env (iterDeliver env j k)).1 := by
      unfold iterDeliver
      rw [Function.iterate_succ_apply']
    have hret : (deliver env (iterDeliver env j k)).1 =
        retrySchedule env.now (iterDeliver env j k) :=
      deliver_step_retry env d h _ ihp
    have hklt : k < 10 := by omega
    refine ⟨?_, ?_, ?_⟩
    · rw [hstep, hret, retrySchedule_payload]; exact ihp
    · rw [hstep, hret]; simp [retrySchedule, ihrc, hklt]
    · intro _
      rw [hstep, hret]
      constructor
      · simp [retrySchedule, ihrc, hklt]
      · simp [retrySchedule, ihrc, hklt]

/-! ## Claim theorems -/

/-- Claim C1: every transient delivery failure (payload deserialization,
token load, template render, mail connect, mail send, receipt creation) takes
the worker's retry branch; a reschedule sets active_at to now plus
1 minute * 2^(retry_count at time of failure) and increments retry_count by
exactly 1, so N consecutive failures from a fresh job produce the delay
sequence 1, 2, 4, ..., 2^(N-1) minutes; at the fixed maximum retry count of
10 the worker marks the job not-to-retry (shouldRetry = false) and performs
no further reschedules. -/
theorem retry_backoff_policy (env : Env) (j : Job) :
    ((deliver env j).2.retryBranch = true →
      (j.retryCount < 10 →
        (deliver env j).1.activeAt = env.now + 60 * 2 ^ j.retryCount ∧
        (deliver env j).1.retryCount = j.retryCount + 1 ∧
        (deliver env j).1.shouldRetry = true) ∧
      (10 ≤ j.retryCount →
        (deliver env j).1.shouldRetry = false ∧
        (deliver env j).1.retryCount = j.retryCount ∧
        (deliver env j).1.activeAt = j.activeAt))
    ∧
    ((∀ raw, j.payload = .malformed raw → (deliver env j).2.retryBranch = true) ∧
     (∀ d e, j.payload = .delivery d → env.tokenLoad = .error e →
        (deliver env j).2.retryBranch = true) ∧
     (∀ d t, j.payload = .delivery d → env.tokenLoad = .ok t → passesPreSend env d →
        env.renderOk = false → (deliver env j).2.retryBranch = true) ∧
     (∀ d t ce, j.payload = .delivery d → env.tokenLoad = .ok t → passesPreSend env d →
        env.renderOk = true → env.connectErr = some ce →
        (deliver env j).2.retryBranch = true) ∧
     (∀ d t se, j.payload = .delivery d → env.tokenLoad = .ok t → passesPreSend env d →
        env.renderOk = true → env.connectErr = none → env.sendErr = some se →
        (deliver env j).2.retryBranch = true) ∧
     (∀ d t re, j.payload = .delivery d → env.tokenLoad = .ok t → passesPreSend env d →
        env.renderOk = true → env.connectErr = none → env.sendErr = none →
        env.receiptErr = some re → (deliver env j).2.retryBranch = true))
    ∧
    (∀ d, j.payload = .delivery d → isRetryOutcome (pipelineOutcome env d) = true →
      j.retryCount = 0 →
      (∀ k, k < 10 →
        (iterDeliver env j (k + 1)).retryCount = k + 1 ∧
        (iterDeliver env j (k + 1)).activeAt = env.now + 60 * 2 ^ k ∧
        (iterDeliver env j (k + 1)).shouldRetry = true) ∧
      (iterDeliver env j 11).shouldRetry = false) := by
  refine ⟨?_, ⟨?_, ?_, ?_, ?_, ?_, ?_⟩, ?_⟩
  · intro h
    have hfst := deliver_fst_of_retryBranch env j h
    constructor
    · intro hlt
      rw [hfst]; simp [retrySchedule, hlt]
    · intro hge
      have hnlt : ¬ j.retryCount < 10 := by omega
      rw [hfst]; simp [retrySchedule, hnlt]
  · intro raw hp
    obtain ⟨p, rc, aa, sr⟩ := j
    cases hp
    simp [deliver, retryMark_retryBranch]
  · intro d e hp htok
    rw [deliver_eq_pipeline env j d hp]
    have ho : pipelineOutcome env d = .retryTokenLoad := by
      simp [pipelineOutcome, htok]
    simp [deliverPipeline, ho, isRetryOutcome, retryMark_retryBranch]
  · intro d t hp htok hpass hrender
    obtain ⟨hg, hk, hne, hat⟩ := hpass
    rw [deliver_eq_pipeline env j d hp]
    have ho : pipelineOutcome env d = .renderFailed := by
      rcases hk with hk | hk <;>
        simp [pipelineOutcome, htok, hg, hk, hne, hat, hrender]
    simp [deliverPipeline, ho, isRetryOutcome, retryMark_retryBranch]
  · intro d t ce hp htok hpass hrender hconn
    obtain ⟨hg, hk, hne, hat⟩ := hpass
    rw [deliver_eq_pipeline env j d hp]
    have ho : pipelineOutcome env d = .connectFailed := by
      rcases hk with hk | hk <;>
        simp [pipelineOutcome, htok, hg, hk, hne, hat, hrender, hconn]
    simp [deliverPipeline, ho, isRetryOutcome, retryMark_retryBranch]
  · intro d t se hp htok hpass hrender hconn hsend
    obtain ⟨hg, hk, hne, hat⟩ := hpass
    rw [deliver_eq_pipeline env j d hp]
    have ho : pipelineOutcome env d = .sendFailed := by
      rcases hk with hk | hk <;>
        simp [pipelineOutcome, htok, hg, hk, hne, hat, hrender, hconn, hsend]
    simp [deliverPipeline, ho, isRetryOutcome, retryMark_retryBranch]
  · intro d t re hp htok hpass hrender hconn hsend hrec
    obtain ⟨hg, hk, hne, hat⟩ := hpass
    rw [deliver_eq_pipeline env j d hp]
    have ho : pipelineOutcome env d = .receiptFailed := by
      rcases hk with hk | hk <;>
        simp [pipelineOutcome, htok, hg, hk, hne, hat, hrender, hconn, hsend, hrec]
    simp [deliverPipeline, ho, isRetryOutcome, retryMark_retryBranch]
  · intro d hp ho h0
    constructor
    · intro k hk
      obtain ⟨_, hrc, hact⟩ := iterDeliver_spec env d ho j hp h0 (k + 1) (by omega)
      exact ⟨hrc, by simpa using (hact (by omega)).1, (hact (by omega)).2⟩
    · obtain ⟨ihp, ihrc, _⟩ := iterDeliver_spec env d ho j hp h0 10 (by omega)
      have hstep : iterDeliver env j 11 = (deliver env (iterDeliver env j 10)).1 := by
        unfold iterDeliver
        rw [show (11 : Nat) = 10 + 1 from rfl, Function.iterate_succ_apply']
      have hret := deliver_step_retry env d ho _ ihp
      rw [hstep, hret]
      have hnlt : ¬ (iterDeliver env j 10).retryCount < 10 := by omega
      simp [retrySchedule, hnlt]

/-- Claim C2: a globally unsubscribed recipient causes zero mail-transport
connects and sends, no Receipt, an upsert of the Message status to
undeliverable, and no job reschedule - for every value of the critical-kind
flag, so also for critical kinds. -/
theorem global_unsubscribe_blocks_send (env : Env) (j : Job) (d : Delivery) (t : String)
    (hp : j.payload = .delivery d) (htok : env.tokenLoad = .ok t)
    (hg : env.globallyUnsubscribed = true) :
    (deliver env j).2.connects = 0 ∧ (deliver env j).2.sends = 0 ∧
    (deliver env j).2.receipts = [] ∧
    (deliver env j).2.upserts = [(d.messageID, Status.undeliverable)] ∧
    (deliver env j).1 = j := by
  rw [deliver_eq_pipeline env j d hp]
  have ho : pipelineOutcome env d = .suppressedGlobal := by
    simp [pipelineOutcome, htok, hg]
  simp [deliverPipeline, ho, isRetryOutcome, pipelineEffects, outcomeLog,
        outcomeConnects, outcomeSends, statusOf, upsertStatus_upserts,
        upsertStatus_connects, upsertStatus_sends, upsertStatus_receipts,
        Effects.empty, logAt]

/-- Claim C3: with a per-kind unsubscribe for (client, kind): a kind
registered as not critical, or not registered at all, means zero connects and
sends and an undeliverable Message upsert; a kind registered as critical lets
the send proceed. -/
theorem kind_unsubscribe_respects_critical (env : Env) (j : Job) (d : Delivery) (t : String)
    (hp : j.payload = .delivery d) (htok : env.tokenLoad = .ok t)
    (hg : env.globallyUnsubscribed = false) (hk : env.kindUnsubscribed = true) :
    ((env.kindCritical = some false ∨ env.kindCritical = none) →
      (deliver env j).2.connects = 0 ∧ (deliver env j).2.sends = 0 ∧
      (deliver env j).2.upserts = [(d.messageID, Status.undeliverable)])
    ∧
    (env.kindCritical = some true →
      resolvedEmail env d ≠ "" → hasAtSign (resolvedEmail env d) = true →
      env.renderOk = true → env.connectErr = none → env.sendErr = none →
      env.receiptErr = none →
      (deliver env j).2.sends = 1 ∧
      (deliver env j).2.upserts = [(d.messageID, Status.delivered)]) := by
  rw [deliver_eq_pipeline env j d hp]
  constructor
  · intro hc
    have ho : pipelineOutcome env d = .suppressedKind := by
      rcases hc with hc | hc <;>
        simp [pipelineOutcome, htok, hg, hk, hc]
    simp [deliverPipeline, ho, isRetryOutcome, pipelineEffects, outcomeLog,
          outcomeConnects, outcomeSends, statusOf, upsertStatus_upserts,
          upsertStatus_connects, upsertStatus_sends, Effects.empty, logAt]
  · intro hc hne hat hrender hconn hsend hrec
    have ho : pipelineOutcome env d = .sent := by
      simp [pipelineOutcome, htok, hg, hk, hc, hne, hat, hrender, hconn, hsend, hrec]
    simp [deliverPipeline, ho, isRetryOutcome, pipelineEffects, outcomeLog,
          outcomeConnects, outcomeSends, statusOf, upsertStatus_upserts,
          upsertStatus_sends, Effects.empty, logAt]

/-- Claim C4: past the suppression checks, an empty resolved email yields
zero connects and sends, an undeliverable Message upsert and the
no-email-address-for-user log event (and not the malformed-address event),
while a nonempty address without an @ separator yields the distinct
malformatted-email-address log event (and not the no-address event). -/
theorem invalid_email_undeliverable (env : Env) (j : Job) (d : Delivery) (t : String)
    (hp : j.payload = .delivery d) (htok : env.tokenLoad = .ok t)
    (hg : env.globallyUnsubscribed = false)
    (hk : env.kindUnsubscribed = false ∨ env.kindCritical = some true) :
    (resolvedEmail env d = "" →
      (deliver env j).2.connects = 0 ∧ (deliver env j).2.sends = 0 ∧
      (deliver env j).2.upserts = [(d.messageID, Status.undeliverable)] ∧
      (⟨"no-email-address-for-user", 1, none⟩ : LogEvent) ∈ (deliver env j).2.log ∧
      (⟨"malformatted-email-address", 1, none⟩ : LogEvent) ∉ (deliver env j).2.log)
    ∧
    (resolvedEmail env d ≠ "" → hasAtSign (resolvedEmail env d) = false →
      (deliver env j).2.connects = 0 ∧ (deliver env j).2.sends = 0 ∧
      (deliver env j).2.upserts = [(d.messageID, Status.undeliverable)] ∧
      (⟨"malformatted-email-address", 1, none⟩ : LogEvent) ∈ (deliver env j).2.log ∧
      (⟨"no-email-address-for-user", 1, none⟩ : LogEvent) ∉ (deliver env j).2.log) := by
  rw [deliver_eq_pipeline env j d hp]
  constructor
  · intro he
    have ho : pipelineOutcome env d = .noEmail := by
      rcases hk with hk | hk <;>
        simp [pipelineOutcome, htok, hg, hk, he]
    cases hue : env.upsertErr <;>
      simp [deliverPipeline, ho, isRetryOutcome, pipelineEffects, outcomeLog,
            outcomeConnects, outcomeSends, statusOf, upsertStatus, hue,
            Effects.empty, logAt]
  · intro hne hat
    have ho : pipelineOutcome env d = .badEmail := by
      rcases hk with hk | hk <;>
        simp [pipelineOutcome, htok, hg, hk, hne, hat]
    cases hue : env.upsertErr <;>
      simp [deliverPipeline, ho, isRetryOutcome, pipelineEffects, outcomeLog,
            outcomeConnects, outcomeSends, statusOf, upsertStatus, hue,
            Effects.empty, logAt]

/-- Claim C5: a Delivery that passes the suppression, validity, template and
transport stages creates exactly one Receipt for
(client_id, kind_id, user_guid), upserts the Message status to delivered,
logs message-sent, sends exactly one message, and completes without a
reschedule. -/
theorem successful_delivery_receipt (env : Env) (j : Job) (d : Delivery) (t : String)
    (hp : j.payload = .delivery d) (htok : env.tokenLoad = .ok t)
    (hg : env.globallyUnsubscribed = false)
    (hk : env.kindUnsubscribed = false ∨ env.kindCritical = some true)
    (hne : resolvedEmail env d ≠ "") (hat : hasAtSign (resolvedEmail env d) = true)
    (hrender : env.renderOk = true) (hconn : env.connectErr = none)
    (hsend : env.sendErr = none) (hrec : env.receiptErr = none) :
    (deliver env j).2.receipts = [(d.clientID, d.options.kindID, d.userGUID)] ∧
    (deliver env j).2.upserts = [(d.messageID, Status.delivered)] ∧
    (⟨"message-sent", 1, none⟩ : LogEvent) ∈ (deliver env j).2.log ∧
    (deliver env j).2.sends = 1 ∧
    (deliver env j).1 = j := by
  rw [deliver_eq_pipeline env j d hp]
  have ho : pipelineOutcome env d = .sent := by
    rcases hk with hk | hk <;>
      simp [pipelineOutcome, htok, hg, hk, hne, hat, hrender, hconn, hsend, hrec]
  cases hue : env.upsertErr <;>
    simp [deliverPipeline, ho, isRetryOutcome, pipelineEffects, outcomeLog,
          outcomeConnects, outcomeSends, statusOf, upsertStatus, hue,
          Effects.empty, logAt]

/-- Claim C6: a campaign payload is forwarded whole to the Strategy
Determiner and the worker returns: no Receipt, no Message upsert, no connect
or send, and an unchanged job. -/
theorem campaign_forwarded_whole (env : Env) (j : Job) (c : Campaign)
    (hp : j.payload = .campaign c) :
    (deliver env j).2.determined = some j ∧
    (deliver env j).2.receipts = [] ∧
    (deliver env j).2.upserts = [] ∧
    (deliver env j).2.sends = 0 ∧
    (deliver env j).2.connects = 0 ∧
    (deliver env j).1 = j ∧
    (⟨"determining-strategy", 1, none⟩ : LogEvent) ∈ (deliver env j).2.log := by
  obtain ⟨p, rc, aa, sr⟩ := j
  cases hp
  simp [deliver, Effects.empty]

/-- Claim C7: when the Message-status upsert fails, the worker logs
failed-message-status-upsert at error level carrying the attempted status,
but the resulting job, sends, connects, upsert attempts and retry decision
are identical to the run where the upsert succeeds - the send outcome
stands and the job is not failed or rescheduled. -/
theorem upsert_failure_does_not_block (env : Env) (j : Job) (er : String)
    (he : env.upsertErr = some er) :
    (deliver env j).1 = (deliver { env with upsertErr := none } j).1 ∧
    (deliver env j).2.sends = (deliver { env with upsertErr := none } j).2.sends ∧
    (deliver env j).2.connects = (deliver { env with upsertErr := none } j).2.connects ∧
    (deliver env j).2.upserts = (deliver { env with upsertErr := none } j).2.upserts ∧
    (deliver env j).2.retryBranch = (deliver { env with upsertErr := none } j).2.retryBranch ∧
    ∀ p ∈ (deliver env j).2.upserts,
      (⟨"failed-message-status-upsert", 2, some p.2⟩ : LogEvent) ∈ (deliver env j).2.log := by
  obtain ⟨p, rc, aa, sr⟩ := j
  cases p with
  | malformed raw =>
    simp [deliver, retryMark_fst, retryMark_sends, retryMark_connects,
          retryMark_upserts, retryMark_retryBranch, Effects.empty]
  | campaign c =>
    simp [deliver, Effects.empty]
  | delivery d =>
    have ho : pipelineOutcome { env with upsertErr := none } d = pipelineOutcome env d := rfl
    simp only [deliver, deliverPipeline, ho]
    cases hoc : pipelineOutcome env d <;>
      simp [hoc, isRetryOutcome, retryMark_fst, retryMark_sends, retryMark_connects,
            retryMark_upserts, retryMark_retryBranch, retryMark_log,
            pipelineEffects, outcomeLog, outcomeConnects, outcomeSends, statusOf,
            upsertStatus, he, Effects.empty, logAt]

/-- Claim C8: EveryoneStrategy.Dispatch, when token load and user-GUID
enumeration succeed, performs exactly one enqueue call carrying one user per
known GUID (n GUIDs yield n enqueued users) and Options whose endorsement is
the fixed string; every enqueued options record carries that endorsement; a
token-load or enumeration failure returns the error with nothing enqueued. -/
theorem everyone_dispatch_fanout (env : EveryoneEnv) (d : SDispatch) :
    (∀ p ∈ (everyoneDispatch env d).enqueued,
       p.2.endorsement = "This message was sent to everyone.")
    ∧
    (∀ t guids, env.loadToken d.uaaHost = .ok t → env.allUserGUIDs t = .ok guids →
       (everyoneDispatch env d).error = none ∧
       (everyoneDispatch env d).enqueued =
         [(guids.map (fun g => SUser.mk g), everyoneOptions d)] ∧
       (guids.map (fun g => SUser.mk g)).length = guids.length ∧
       (everyoneDispatch env d).responses =
         env.enqueue (guids.map (fun g => SUser.mk g)) (everyoneOptions d))
    ∧
    (∀ e, env.loadToken d.uaaHost = .error e →
       (everyoneDispatch env d).error = some e ∧
       (everyoneDispatch env d).enqueued = [] ∧
       (everyoneDispatch env d).responses = [])
    ∧
    (∀ t e, env.loadToken d.uaaHost = .ok t → env.allUserGUIDs t = .error e →
       (everyoneDispatch env d).error = some e ∧
       (everyoneDispatch env d).enqueued = [] ∧
       (everyoneDispatch env d).responses = []) := by
  refine ⟨?_, ?_, ?_, ?_⟩
  · intro p hp
    unfold everyoneDispatch at hp
    cases hl : env.loadToken d.uaaHost with
    | error e => simp [hl] at hp
    | ok t =>
      cases hg : env.allUserGUIDs t with
      | error e => simp [hl, hg] at hp
      | ok guids =>
        simp [hl, hg] at hp
        rw [hp]
        simp [everyoneOptions, EveryoneEndorsement]
  · intro t guids hl hg
    simp [everyoneDispatch, hl, hg, everyoneOptions, EveryoneEndorsement]
  · intro e hl
    simp [everyoneDispatch, hl]
  · intro t e hl hg
    simp [everyoneDispatch, hl, hg]

/-- Claim C9: a job whose payload fails to deserialize is handled by a total
branch of deliver (no panic), and the job is rescheduled with the standard
backoff: on the first failure retry_count becomes 1 and active_at is now plus
1 minute, with no send, no upsert and no forward to the determiner. -/
theorem malformed_payload_retries (env : Env) (j : Job) (raw : String)
    (hp : j.payload = .malformed raw) (hr : j.retryCount = 0) :
    (deliver env j).1.retryCount = 1 ∧
    (deliver env j).1.activeAt = env.now + 60 ∧
    (deliver env j).1.shouldRetry = true ∧
    (deliver env j).2.sends = 0 ∧
    (deliver env j).2.connects = 0 ∧
    (deliver env j).2.determined = none ∧
    (deliver env j).2.upserts = [] := by
  obtain ⟨p, rc, aa, sr⟩ := j
  cases hp
  simp only at hr
  subst hr
  simp [deliver, retryMark, retrySchedule, Effects.empty, logAt]

/-- Claim C10: PreferenceFinder.ParseUserID evaluates the user_id type
assertion on the parsed token before the parse error is ever checked, so
whenever jwt.Parse does not produce a token carrying a string user_id claim
(nil token on parse failure, or a missing or non-string claim), ParseUserID
panics instead of returning an error to the caller. -/
theorem parse_user_id_panics (t : Option JwtToken) (e : Option String)
    (h : ∀ tok, t = some tok →
           ∀ s, tok.claims.lookup "user_id" ≠ some (ClaimValue.str s)) :
    (ParseUserID t e).isCrash = true := by
  cases t with
  | none => rfl
  | some tok =>
    cases hl : tok.claims.lookup "user_id" with
    | none => simp [ParseUserID, hl, GoEval.isCrash]
    | some v =>
      cases v with
      | str s => exact absurd hl (h tok rfl s)
      | num n => simp [ParseUserID, hl, GoEval.isCrash]
      | other => simp [ParseUserID, hl, GoEval.isCrash]

/-! ## Witnesses: each applies its claim theorem at concrete inputs -/

/-- Concrete instantiation of the corresponding claim theorem. -/
theorem retry_backoff_policy_witness :
    (deliver connectFailEnv sampleJob).2.retryBranch = true ∧
    (deliver connectFailEnv sampleJob).1.retryCount = sampleJob.retryCount + 1 ∧
    (deliver connectFailEnv sampleJob).1.activeAt =
      connectFailEnv.now + 60 * 2 ^ sampleJob.retryCount ∧
    (iterDeliver connectFailEnv sampleJob 11).shouldRetry = false := by
  have h := retry_backoff_policy connectFailEnv sampleJob
  have hbr : (deliver connectFailEnv sampleJob).2.retryBranch = true :=
    h.2.1.2.2.2.1 sampleDelivery "zoned-token" "BOOM" rfl rfl
      ⟨rfl, Or.inl rfl, by decide, by decide⟩ rfl rfl
  have hA := (h.1 hbr).1 (by decide)
  have hC := h.2.2 sampleDelivery rfl (by decide) rfl
  exact ⟨hbr, hA.2.1, hA.1, hC.2⟩

/-- Concrete instantiation of the corresponding claim theorem. -/
theorem global_unsubscribe_witness :
    (deliver gUnsubEnv sampleJob).2.connects = 0 ∧
    (deliver gUnsubEnv sampleJob).2.sends = 0 ∧
    (deliver gUnsubEnv sampleJob).2.receipts = [] ∧
    (deliver gUnsubEnv sampleJob).2.upserts =
      [(sampleDelivery.messageID, Status.undeliverable)] ∧
    (deliver gUnsubEnv sampleJob).1 = sampleJob :=
  global_unsubscribe_blocks_send gUnsubEnv sampleJob sampleDelivery "zoned-token"
    rfl rfl rfl

/-- Concrete instantiation of the corresponding claim theorem. -/
theorem kind_unsubscribe_witness :
    ((deliver kindUnsubEnv sampleJob).2.sends = 0 ∧
     (deliver kindUnsubEnv sampleJob).2.upserts =
       [(sampleDelivery.messageID, Status.undeliverable)]) ∧
    (deliver kindUnsubCritEnv sampleJob).2.sends = 1 := by
  have h1 := kind_unsubscribe_respects_critical kindUnsubEnv sampleJob
    sampleDelivery "zoned-token" rfl rfl rfl rfl
  have h2 := kind_unsubscribe_respects_critical kindUnsubCritEnv sampleJob
    sampleDelivery "zoned-token" rfl rfl rfl rfl
  have hb := h1.1 (Or.inr rfl)
  have hc := h2.2 rfl (by decide) (by decide) rfl rfl rfl rfl
  exact ⟨⟨hb.2.1, hb.2.2⟩, hc.1⟩

/-- Concrete instantiation of the corresponding claim theorem. -/
theorem invalid_email_witness :
    ((deliver noEmailEnv sampleJob).2.sends = 0 ∧
     (deliver noEmailEnv sampleJob).2.upserts =
       [(sampleDelivery.messageID, Status.undeliverable)] ∧
     (⟨"no-email-address-for-user", 1, none⟩ : LogEvent) ∈
       (deliver noEmailEnv sampleJob).2.log) ∧
    ((deliver sampleEnv badEmailJob).2.sends = 0 ∧
     (deliver sampleEnv badEmailJob).2.upserts =
       [(badEmailDelivery.messageID, Status.undeliverable)] ∧
     (⟨"malformatted-email-address", 1, none⟩ : LogEvent) ∈
       (deliver sampleEnv badEmailJob).2.log) := by
  have h1 := invalid_email_undeliverable noEmailEnv sampleJob sampleDelivery
    "zoned-token" rfl rfl rfl (Or.inl rfl)
  have h2 := invalid_email_undeliverable sampleEnv badEmailJob badEmailDelivery
    "zoned-token" rfl rfl rfl (Or.inl rfl)
  have ha := h1.1 (by decide)
  have hb := h2.2 (by decide) (by decide)
  exact ⟨⟨ha.2.1, ha.2.2.1, ha.2.2.2.1⟩, ⟨hb.2.1, hb.2.2.1, hb.2.2.2.1⟩⟩

/-- Concrete instantiation of the corresponding claim theorem. -/
theorem successful_delivery_witness :
    (deliver sampleEnv sampleJob).2.receipts =
      [(sampleDelivery.clientID, sampleDelivery.options.kindID, sampleDelivery.userGUID)] ∧
    (deliver sampleEnv sampleJob).2.upserts =
      [(sampleDelivery.messageID, Status.delivered)] ∧
    (⟨"message-sent", 1, none⟩ : LogEvent) ∈ (deliver sampleEnv sampleJob).2.log ∧
    (deliver sampleEnv sampleJob).2.sends = 1 ∧
    (deliver sampleEnv sampleJob).1 = sampleJob :=
  successful_delivery_receipt sampleEnv sampleJob sampleDelivery "zoned-token"
    rfl rfl rfl (Or.inl rfl) (by decide) (by decide) rfl rfl rfl rfl

/-- Concrete instantiation of the corresponding claim theorem. -/
theorem campaign_forwarded_witness :
    (deliver sampleEnv sampleCampaignJob).2.determined = some sampleCampaignJob ∧
    (deliver sampleEnv sampleCampaignJob).2.receipts = [] ∧
    (deliver sampleEnv sampleCampaignJob).2.upserts = [] ∧
    (deliver sampleEnv sampleCampaignJob).2.sends = 0 ∧
    (deliver sampleEnv sampleCampaignJob).2.connects = 0 ∧
    (deliver sampleEnv sampleCampaignJob).1 = sampleCampaignJob ∧
    (⟨"determining-strategy", 1, none⟩ : LogEvent) ∈
      (deliver sampleEnv sampleCampaignJob).2.log :=
  campaign_forwarded_whole sampleEnv sampleCampaignJob ⟨"campaign-1"⟩ rfl

/-- Concrete instantiation of the corresponding claim theorem. -/
theorem upsert_failure_witness :
    (deliver upsertFailEnv sampleJob).1 =
      (deliver { upsertFailEnv with upsertErr := none } sampleJob).1 ∧
    (deliver upsertFailEnv sampleJob).2.sends =
      (deliver { upsertFailEnv with upsertErr := none } sampleJob).2.sends ∧
    (⟨"failed-message-status-upsert", 2, some Status.delivered⟩ : LogEvent) ∈
      (deliver upsertFailEnv sampleJob).2.log := by
  have h := upsert_failure_does_not_block upsertFailEnv sampleJob "db down" rfl
  exact ⟨h.1, h.2.1, h.2.2.2.2.2 (sampleDelivery.messageID, Status.delivered) (by decide)⟩

/-- Concrete instantiation of the corresponding claim theorem. -/
theorem malformed_payload_witness :
    (deliver sampleEnv sampleMalformedJob).1.retryCount = 1 ∧
    (deliver sampleEnv sampleMalformedJob).1.activeAt = sampleEnv.now + 60 ∧
    (deliver sampleEnv sampleMalformedJob).1.shouldRetry = true ∧
    (deliver sampleEnv sampleMalformedJob).2.sends = 0 ∧
    (deliver sampleEnv sampleMalformedJob).2.determined = none :=
  by
  have h := malformed_payload_retries sampleEnv sampleMalformedJob
    "truncated json" rfl rfl
  exact ⟨h.1, h.2.1, h.2.2.1, h.2.2.2.1, h.2.2.2.2.2.1⟩

/-- Concrete instantiation of the corresponding claim theorem. -/
theorem everyone_dispatch_witness :
    (everyoneDispatch sampleEveryoneEnv sampleSDispatch).error = none ∧
    (everyoneDispatch sampleEveryoneEnv sampleSDispatch).enqueued =
      [(["user-a", "user-b", "user-c"].map (fun g => SUser.mk g),
        everyoneOptions sampleSDispatch)] ∧
    (["user-a", "user-b", "user-c"].map (fun g => SUser.mk g)).length =
      (["user-a", "user-b", "user-c"] : List String).length ∧
    (everyoneOptions sampleSDispatch).endorsement =
      "This message was sent to everyone." := by
  have h := everyone_dispatch_fanout sampleEveryoneEnv sampleSDispatch
  have hs := h.2.1 "uaa-token" ["user-a", "user-b", "user-c"] rfl rfl
  exact ⟨hs.1, hs.2.1, hs.2.2.1, rfl⟩

/-- Concrete instantiation of the corresponding claim theorem. -/
theorem parse_user_id_witness :
    (ParseUserID none
      (some "token contains an invalid number of segments")).isCrash = true ∧
    (ParseUserID (some ⟨[("exp", ClaimValue.num 3404281214)]⟩)
      (some "signature is invalid")).isCrash = true := by
  constructor
  · exact parse_user_id_panics none
      (some "token contains an invalid number of segments")
      (fun tok htok => nomatch htok)
  · exact parse_user_id_panics
      (some ⟨[("exp", ClaimValue.num 3404281214)]⟩) (some "signature is invalid")
      (fun tok htok s => by cases htok; simp [List.lookup])
